import Mathlib

/-!
Verification model of the metrics streaming pipeline in docker/stats.go.

Conventions of the shallow embedding:
* Go uint64 values are modelled as Nat; where the source performs uint64
  subtraction (which wraps modulo 2 ^ 64) the wrap is made explicit via sub64.
* Go float64 arithmetic is modelled by exact rational arithmetic over ℚ.
* Go maps and slices are modelled as lists; channels and goroutines are
  modelled by an explicit event-trace state machine (see LoopState, step, run).
-/

/-- Wrapping uint64 subtraction: for a b < 2 ^ 64 this is the value of the Go
expression a - b on uint64 operands. -/
def sub64 (a b : Nat) : Nat :=
  (a + 2 ^ 64 - b % 2 ^ 64) % 2 ^ 64

namespace types

structure CPUUsage where
  TotalUsage : Nat
  PercpuUsage : List Nat
  deriving DecidableEq

structure CPUStats where
  CPUUsage : types.CPUUsage
  SystemUsage : Nat
  deriving DecidableEq

structure MemoryStats where
  Usage : Nat
  Limit : Nat
  deriving DecidableEq

structure BlkioStatEntry where
  Op : String
  Value : Nat
  deriving DecidableEq

structure BlkioStats where
  IoServiceBytesRecursive : List BlkioStatEntry
  deriving DecidableEq

structure NetworkStats where
  RxBytes : Nat
  TxBytes : Nat
  deriving DecidableEq

structure PidsStats where
  Current : Nat
  deriving DecidableEq

/-- Model of types.StatsJSON: one decoded point-in-time usage snapshot.
The Networks map is modelled as an association list of interface entries. -/
structure StatsJSON where
  CPUStats : types.CPUStats
  PreCPUStats : types.CPUStats
  MemoryStats : types.MemoryStats
  BlkioStats : types.BlkioStats
  Networks : List (String × NetworkStats)
  PidsStats : types.PidsStats
  deriving DecidableEq

/-- Model of types.Container: identity and state of the monitored container. -/
structure Container where
  ID : String
  Command : String
  Names : List String
  State : String
  deriving DecidableEq

end types

/-- Modelled from the spec: IsContainerRunning is defined outside the given
sources; per the spec it reports the running-state flag of the container. -/
def IsContainerRunning (c : types.Container) : Bool :=
  c.State == "running"

/-- Modelled from the spec: TruncateID is defined outside the given sources;
per the spec it produces the truncated display form of a container id. -/
def TruncateID (id : String) : String :=
  id.take 12

/-- Model of the Stats output record (the Go type is declared outside the
given sources; its fields are taken from their uses in buildStats and in the
consumer, matching the DerivedStats record of the spec). -/
structure Stats where
  CID : String
  Command : String
  Stats : types.StatsJSON
  ProcessList : List (List String)
  CPUPercentage : ℚ
  Memory : ℚ
  MemoryLimit : ℚ
  MemoryPercentage : ℚ
  NetworkRx : ℚ
  NetworkTx : ℚ
  BlockRead : ℚ
  BlockWrite : ℚ
  PidsCurrent : Nat
  deriving DecidableEq

/-- Translation of calculateCPUPercent. The Go subtractions are on uint64,
hence sub64; the float64 arithmetic is modelled over ℚ. -/
def calculateCPUPercent (stats : types.StatsJSON) : ℚ :=
  let previousCPU := stats.PreCPUStats.CPUUsage.TotalUsage
  let previousSystem := stats.PreCPUStats.SystemUsage
  let cpuDelta : ℚ := (sub64 stats.CPUStats.CPUUsage.TotalUsage previousCPU : ℚ)
  let systemDelta : ℚ := (sub64 stats.CPUStats.SystemUsage previousSystem : ℚ)
  if 0 < systemDelta ∧ 0 < cpuDelta then
    cpuDelta / systemDelta * (stats.CPUStats.CPUUsage.PercpuUsage.length : ℚ) * 100
  else 0

/-- Translation of calculateMemPercentage. -/
def calculateMemPercentage (stats : types.StatsJSON) : ℚ :=
  if stats.MemoryStats.Limit ≠ 0 then
    (stats.MemoryStats.Usage : ℚ) / (stats.MemoryStats.Limit : ℚ) * 100
  else 0

/-- Translation of calculateBlockIO: fold over the IoServiceBytesRecursive
entries, classifying each operation label after lowercasing. -/
def calculateBlockIO (stats : types.StatsJSON) : Nat × Nat :=
  stats.BlkioStats.IoServiceBytesRecursive.foldl
    (fun acc e =>
      if e.Op.toLower == "read" then (acc.1 + e.Value, acc.2)
      else if e.Op.toLower == "write" then (acc.1, acc.2 + e.Value)
      else acc)
    (0, 0)

/-- Translation of calculateNetwork: sum received and transmitted bytes over
all interface entries. -/
def calculateNetwork (stats : types.StatsJSON) : ℚ × ℚ :=
  stats.Networks.foldl
    (fun acc v => (acc.1 + (v.2.RxBytes : ℚ), acc.2 + (v.2.TxBytes : ℚ)))
    (0, 0)

/-- Translation of buildStats, keeping the two assignment passes of the Go
source: a first pass of field assignments and a second pass that recomputes
and overwrites every derived field. -/
def buildStats (container : types.Container) (stats : types.StatsJSON)
    (topResult : List (List String)) : Stats :=
  let s : Stats := {
    CID := TruncateID container.ID
    Command := container.Command
    Stats := stats
    ProcessList := topResult
    CPUPercentage := 0
    Memory := 0
    MemoryLimit := 0
    MemoryPercentage := 0
    NetworkRx := 0
    NetworkTx := 0
    BlockRead := 0
    BlockWrite := 0
    PidsCurrent := 0 }
  let s := { s with CPUPercentage := calculateCPUPercent stats }
  let br := ( calculateBlockIO stats).1
  let bw := ( calculateBlockIO stats).2
  let s := { s with BlockRead := (br : ℚ), BlockWrite := (bw : ℚ) }
  let s := { s with Memory := (stats.MemoryStats.Usage : ℚ) }
  let s := { s with MemoryLimit := (stats.MemoryStats.Limit : ℚ) }
  let s := { s with MemoryPercentage := calculateMemPercentage stats }
  let rxtx := calculateNetwork stats
  let s := { s with NetworkRx := rxtx.1, NetworkTx := rxtx.2 }
  let memPercent : ℚ :=
    if stats.MemoryStats.Limit ≠ 0 then
      (stats.MemoryStats.Usage : ℚ) / (stats.MemoryStats.Limit : ℚ) * 100
    else 0
  let cpuPercent := calculateCPUPercent stats
  let blkRead := ( calculateBlockIO stats).1
  let blkWrite := ( calculateBlockIO stats).2
  let s := { s with
    CPUPercentage := cpuPercent
    Memory := (stats.MemoryStats.Usage : ℚ)
    MemoryLimit := (stats.MemoryStats.Limit : ℚ)
    MemoryPercentage := memPercent
    NetworkRx := ( calculateNetwork stats).1
    NetworkTx := ( calculateNetwork stats).2
    BlockRead := (blkRead : ℚ)
    BlockWrite := (blkWrite : ℚ)
    PidsCurrent := stats.PidsStats.Current }
  s

/-- Model of the StatsChannel record. The two Go channels are modelled by
their presence (some) or absence / nil (none); startsTask records whether the
constructor started the background sampling goroutine. -/
structure StatsChannel where
  Container : types.Container
  Stats : Option Unit
  Done : Option Unit
  startsTask : Bool
  deriving DecidableEq

/-- Translation of the control flow of NewStatsChannel: when the container is
running it creates both channels and starts the sampling goroutine, otherwise
it returns a record with nil channels and starts nothing. The daemon argument
only feeds the goroutine and plays no role in this shape. -/
def NewStatsChannel (container : types.Container) : StatsChannel :=
  if IsContainerRunning container then
    { Container := container, Stats := some (), Done := some (), startsTask := true }
  else
    { Container := container, Stats := none, Done := none, startsTask := false }

/-- Outcome of one blocking dec.Decode call inside the tick branch: an error
or EOF, a successful decode of JSON null (statsJSON stays nil, nothing is
emitted), or a snapshot together with the outcome of the daemon.Top query
(none models a failed query; modelled from the spec, the process list is
absent on failure). -/
inductive DecodeResult where
  | err
  | nilSnap
  | ok (s : types.StatsJSON) (top : Option (List (List String)))
  deriving DecidableEq

/-- Events delivered to the sampling goroutine by its environment: the ticker
fires, the consumer signals the done channel, the context is cancelled (the
runtime ended the session), or the in-flight decode returns. -/
inductive GoEvent where
  | tick
  | doneArrives
  | ctxArrives
  | decodeRet (r : DecodeResult)
  deriving DecidableEq

/-- Observable actions of the sampling goroutine: sending a record on the
stats channel, cancelling the context (which aborts the underlying
connection), closing the stats channel, and closing the response body. -/
inductive LoopAction where
  | emit (s : Stats)
  | cancelCtx
  | closeStats
  | closeBody
  deriving DecidableEq

/-- Control state of the sampling goroutine: blocked in the select, blocked
inside dec.Decode in the tick branch (with signals that arrived meanwhile and
will only be observed at the next select), or returned. -/
inductive LoopState where
  | selecting
  | decoding (pendingDone pendingCtx : Bool)
  | exited
  deriving DecidableEq

/-- Resolution of the select reached after the body of a tick branch ran: a
pending done signal takes the done case (cancel the context, then return), a
pending context cancellation takes the ctx.Done case (return); the two
deferred calls close(stats) and responseBody.Close() run on every return, in
that order (last-in first-out). -/
def afterTickBody (pendingDone pendingCtx : Bool) (emitted : List LoopAction) :
    LoopState × List LoopAction :=
  if pendingDone then
    (LoopState.exited, emitted ++ [LoopAction.cancelCtx, LoopAction.closeStats, LoopAction.closeBody])
  else if pendingCtx then
    (LoopState.exited, emitted ++ [LoopAction.closeStats, LoopAction.closeBody])
  else
    (LoopState.selecting, emitted)

/-- One transition of the sampling goroutine of NewStatsChannel on one
environment event. While the goroutine is blocked inside dec.Decode, done and
ctx signals are merely recorded: the select only observes them after the
decode returns. A decode error returns immediately; a decoded snapshot is
passed to buildStats (with an empty process list when daemon.Top failed,
whose error is discarded) and emitted. -/
def step (c : types.Container) : LoopState → GoEvent → LoopState × List LoopAction
  | LoopState.selecting, GoEvent.tick => (LoopState.decoding false false, [])
  | LoopState.selecting, GoEvent.doneArrives =>
      (LoopState.exited, [LoopAction.cancelCtx, LoopAction.closeStats, LoopAction.closeBody])
  | LoopState.selecting, GoEvent.ctxArrives =>
      (LoopState.exited, [LoopAction.closeStats, LoopAction.closeBody])
  | LoopState.selecting, GoEvent.decodeRet _ => (LoopState.selecting, [])
  | LoopState.decoding pd pc, GoEvent.tick => (LoopState.decoding pd pc, [])
  | LoopState.decoding pd pc, GoEvent.doneArrives => (LoopState.decoding true pc, [])
  | LoopState.decoding pd pc, GoEvent.ctxArrives => (LoopState.decoding pd true, [])
  | LoopState.decoding _ _, GoEvent.decodeRet DecodeResult.err =>
      (LoopState.exited, [LoopAction.closeStats, LoopAction.closeBody])
  | LoopState.decoding pd pc, GoEvent.decodeRet DecodeResult.nilSnap =>
      afterTickBody pd pc []
  | LoopState.decoding pd pc, GoEvent.decodeRet (DecodeResult.ok s top) =>
      afterTickBody pd pc [LoopAction.emit (buildStats c s (top.getD []))]
  | LoopState.exited, _ => (LoopState.exited, [])

/-- Run of the goroutine from a state, accumulating the action trace. -/
def runFrom (c : types.Container) : LoopState → List LoopAction → List GoEvent →
    LoopState × List LoopAction
  | st, acts, [] => (st, acts)
  | st, acts, e :: evs =>
      let r := step c st e
      runFrom c r.1 (acts ++ r.2) evs

/-- Run of the goroutine from the top of the sampling loop. -/
def run (c : types.Container) (evs : List GoEvent) : LoopState × List LoopAction :=
  runFrom c LoopState.selecting [] evs

/-- Discriminator for close-stats actions, used to count releases. -/
def isCloseStats : LoopAction → Bool
  | LoopAction.closeStats => true
  | _ => false

/-- Discriminator for close-body actions, used to count releases. -/
def isCloseBody : LoopAction → Bool
  | LoopAction.closeBody => true
  | _ => false

/-- Every value an action trace carries on the stats channel is a record
built by buildStats from a decoded snapshot: no error value is ever emitted. -/
def emitIsBuild (c : types.Container) : LoopAction → Prop
  | LoopAction.emit s => ∃ sj top, s = buildStats c sj top
  | _ => True

/-- Sum of the byte values of the block I/O entries whose operation label
lowercases to "read" (the reading of the claim). -/
def readSum (l : List types.BlkioStatEntry) : Nat :=
  ((l.filter fun e => e.Op.toLower == "read").map types.BlkioStatEntry.Value).sum

/-- Sum of the byte values of the block I/O entries whose operation label
lowercases to "write" (the reading of the claim). -/
def writeSum (l : List types.BlkioStatEntry) : Nat :=
  ((l.filter fun e => e.Op.toLower == "write").map types.BlkioStatEntry.Value).sum

/-- Number of times an action trace closes the stats channel. -/
def countCloseStats (acts : List LoopAction) : Nat :=
  acts.countP isCloseStats

/-- Number of times an action trace closes the response body. -/
def countCloseBody (acts : List LoopAction) : Nat :=
  acts.countP isCloseBody

/-- Single-pass construction of the output record, following the words of the
claim: each derived field is computed once by the corresponding calculator.
Compared with buildStats (the two-pass translation of the source). -/
def buildStatsSinglePass (container : types.Container) (stats : types.StatsJSON)
    (topResult : List (List String)) : Stats :=
  { CID := TruncateID container.ID
    Command := container.Command
    Stats := stats
    ProcessList := topResult
    CPUPercentage := calculateCPUPercent stats
    Memory := (stats.MemoryStats.Usage : ℚ)
    MemoryLimit := (stats.MemoryStats.Limit : ℚ)
    MemoryPercentage := calculateMemPercentage stats
    NetworkRx := ( calculateNetwork stats).1
    NetworkTx := ( calculateNetwork stats).2
    BlockRead := (( calculateBlockIO stats).1 : ℚ)
    BlockWrite := (( calculateBlockIO stats).2 : ℚ)
    PidsCurrent := stats.PidsStats.Current }

/-- Concrete running container used by concrete instantiations. -/
def c0 : types.Container :=
  { ID := "0123456789abcdef", Command := "top", Names := ["/c0"], State := "running" }

/-- Concrete stopped container. -/
def cStopped : types.Container :=
  { ID := "fedcba9876543210", Command := "top", Names := ["/c1"], State := "exited" }

/-- Concrete snapshot of the CPU example of the spec: totals 200 over 100,
system 1000 over 800, two cores. -/
def exCPU : types.StatsJSON :=
  { CPUStats := ⟨⟨200, [0, 0]⟩, 1000⟩, PreCPUStats := ⟨⟨100, [0, 0]⟩, 800⟩
    MemoryStats := ⟨0, 0⟩, BlkioStats := ⟨[]⟩
    Networks := [], PidsStats := ⟨0⟩ }

/-- Concrete snapshot with a negative mathematical CPU delta: the current
total 0 is below the previous total 1, while the system counter advanced. -/
def exCPUNeg : types.StatsJSON :=
  { CPUStats := ⟨⟨0, [0]⟩, 2⟩, PreCPUStats := ⟨⟨1, [0]⟩, 0⟩
    MemoryStats := ⟨0, 0⟩, BlkioStats := ⟨[]⟩
    Networks := [], PidsStats := ⟨0⟩ }

/-- Concrete snapshot whose usage counters did not move at all. -/
def exCPUFlat : types.StatsJSON :=
  { CPUStats := ⟨⟨7, [0]⟩, 9⟩, PreCPUStats := ⟨⟨7, [0]⟩, 9⟩
    MemoryStats := ⟨0, 0⟩, BlkioStats := ⟨[]⟩
    Networks := [], PidsStats := ⟨0⟩ }

/-- Concrete snapshot of the memory example of the spec: usage 500 of 1000. -/
def exMem : types.StatsJSON :=
  { CPUStats := ⟨⟨0, []⟩, 0⟩, PreCPUStats := ⟨⟨0, []⟩, 0⟩
    MemoryStats := ⟨500, 1000⟩, BlkioStats := ⟨[]⟩
    Networks := [], PidsStats := ⟨0⟩ }

theorem sub64_eq_sub (a b : Nat) (hba : b ≤ a) (ha : a < 2 ^ 64) :
    sub64 a b = a - b := by
  have h64 : (2 : Nat) ^ 64 = 18446744073709551616 := by norm_num
  unfold sub64
  rw [h64] at ha ⊢
  omega

theorem blkio_foldl_add (l : List types.BlkioStatEntry) (a b : Nat) :
    l.foldl
      (fun acc e =>
        if e.Op.toLower == "read" then (acc.1 + e.Value, acc.2)
        else if e.Op.toLower == "write" then (acc.1, acc.2 + e.Value)
        else acc)
      (a, b) = (a + readSum l, b + writeSum l) := by
  induction l generalizing a b with
  | nil => simp [readSum, writeSum]
  | cons e t ih =>
      simp only [List.foldl_cons]
      rcases hr : e.Op.toLower == "read" with _ | _
      · rcases hw : e.Op.toLower == "write" with _ | _
        · show List.foldl _ (a, b) t = _
          rw [ih]
          have h1 : readSum (e :: t) = readSum t := by
            simp [readSum, List.filter_cons, hr]
          have h2 : writeSum (e :: t) = writeSum t := by
            simp [writeSum, List.filter_cons, hw]
          rw [h1, h2]
        · show List.foldl _ (a, b + e.Value) t = _
          rw [ih]
          have h1 : readSum (e :: t) = readSum t := by
            simp [readSum, List.filter_cons, hr]
          have h2 : writeSum (e :: t) = e.Value + writeSum t := by
            simp [writeSum, List.filter_cons, hw]
          rw [h1, h2]
          congr 1 <;> omega
      · show List.foldl _ (a + e.Value, b) t = _
        have hr2 : e.Op.toLower = "read" := by simpa using hr
        have hw : (e.Op.toLower == "write") = false := by
          rw [hr2]; decide
        rw [ih]
        have h1 : readSum (e :: t) = e.Value + readSum t := by
          simp [readSum, List.filter_cons, hr]
        have h2 : writeSum (e :: t) = writeSum t := by
          simp [writeSum, List.filter_cons, hw]
        rw [h1, h2]
        congr 1 <;> omega

theorem net_foldl_add (l : List (String × types.NetworkStats)) (a b : ℚ) :
    l.foldl
      (fun acc v => (acc.1 + (v.2.RxBytes : ℚ), acc.2 + (v.2.TxBytes : ℚ)))
      (a, b) =
      (a + (l.map fun v => ((v.2.RxBytes : ℚ))).sum,
       b + (l.map fun v => ((v.2.TxBytes : ℚ))).sum) := by
  induction l generalizing a b with
  | nil => simp
  | cons e t ih => simp [ih, add_assoc]

/-- C3: for every snapshot, calculateMemPercentage returns usage divided by
limit times 100 when the memory limit is non-zero (equivalently, multiplied
out, percentage times limit equals usage times 100), and returns 0 when the
limit is 0, so no division by zero occurs. -/
theorem calculateMemPercentage_spec (s : types.StatsJSON) :
    (s.MemoryStats.Limit ≠ 0 →
      calculateMemPercentage s =
        (s.MemoryStats.Usage : ℚ) / (s.MemoryStats.Limit : ℚ) * 100 ∧
      calculateMemPercentage s * (s.MemoryStats.Limit : ℚ) =
        (s.MemoryStats.Usage : ℚ) * 100) ∧
    (s.MemoryStats.Limit = 0 → calculateMemPercentage s = 0) := by
  constructor
  · intro h
    have hq : (s.MemoryStats.Limit : ℚ) ≠ 0 := Nat.cast_ne_zero.mpr h
    refine ⟨by simp [calculateMemPercentage, h], ?_⟩
    simp only [calculateMemPercentage, h, if_pos, ne_eq, not_false_iff]
    field_simp
  · intro h
    simp [calculateMemPercentage, h]

/-- C3 witness: the spec example, usage 500 of limit 1000 gives 50 percent. -/
theorem calculateMemPercentage_spec_witness :
    exMem.MemoryStats.Limit ≠ 0 ∧ calculateMemPercentage exMem = 50 := by
  have h := (calculateMemPercentage_spec exMem).1 (by decide)
  refine ⟨by decide, ?_⟩
  rw [h.1]
  norm_num [exMem]

/-- C4: calculateBlockIO returns, in its first component, the sum of the byte
values of the entries whose operation label lowercases to "read" and, in its
second, the sum over those lowercasing to "write"; entries with any other
label contribute to neither sum. -/
theorem calculateBlockIO_classifies (s : types.StatsJSON) :
    calculateBlockIO s =
      (readSum s.BlkioStats.IoServiceBytesRecursive,
       writeSum s.BlkioStats.IoServiceBytesRecursive) := by
  have h := blkio_foldl_add s.BlkioStats.IoServiceBytesRecursive 0 0
  simpa [ calculateBlockIO] using h

/-- C5: calculateNetwork returns the sum of received bytes and, independently,
the sum of transmitted bytes over every interface entry of the snapshot. -/
theorem calculateNetwork_sums (s : types.StatsJSON) :
    calculateNetwork s =
      ((s.Networks.map fun v => ((v.2.RxBytes : ℚ))).sum,
       (s.Networks.map fun v => ((v.2.TxBytes : ℚ))).sum) := by
  have h := net_foldl_add s.Networks 0 0
  simpa [calculateNetwork] using h

/-- C1: for every snapshot pair in which both the container usage counter and
the system usage counter strictly advanced (all counters being uint64 values,
hence below 2 ^ 64), calculateCPUPercent returns the ratio of the usage delta
to the system delta, times the number of per-core usage entries of the
current snapshot, times 100. -/
theorem calculateCPUPercent_formula (s : types.StatsJSON)
    (hc : s.PreCPUStats.CPUUsage.TotalUsage < s.CPUStats.CPUUsage.TotalUsage)
    (hcb : s.CPUStats.CPUUsage.TotalUsage < 2 ^ 64)
    (hs : s.PreCPUStats.SystemUsage < s.CPUStats.SystemUsage)
    (hsb : s.CPUStats.SystemUsage < 2 ^ 64) :
    calculateCPUPercent s =
      ((s.CPUStats.CPUUsage.TotalUsage : ℚ) - (s.PreCPUStats.CPUUsage.TotalUsage : ℚ)) /
          ((s.CPUStats.SystemUsage : ℚ) - (s.PreCPUStats.SystemUsage : ℚ)) *
        (s.CPUStats.CPUUsage.PercpuUsage.length : ℚ) * 100 := by
  have e1 := sub64_eq_sub _ _ hc.le hcb
  have e2 := sub64_eq_sub _ _ hs.le hsb
  have hpos1 : (0 : ℚ) <
      ((s.CPUStats.CPUUsage.TotalUsage - s.PreCPUStats.CPUUsage.TotalUsage : Nat) : ℚ) := by
    exact_mod_cast Nat.sub_pos_of_lt hc
  have hpos2 : (0 : ℚ) <
      ((s.CPUStats.SystemUsage - s.PreCPUStats.SystemUsage : Nat) : ℚ) := by
    exact_mod_cast Nat.sub_pos_of_lt hs
  simp only [calculateCPUPercent, e1, e2]
  rw [if_pos ⟨hpos2, hpos1⟩]
  rw [Nat.cast_sub hc.le, Nat.cast_sub hs.le]

/-- C1 witness: the spec example snapshot exCPU: deltas 100 over 200 with two
cores give 100 percent. -/
theorem calculateCPUPercent_formula_witness :
    calculateCPUPercent exCPU = 100 := by
  rw [calculateCPUPercent_formula exCPU (by decide) (by decide) (by decide) (by decide)]
  norm_num [exCPU]

/-- C2 counterexample: on exCPUNeg the mathematical CPU usage delta is
negative (0 now, 1 before), so the claim asserts a zero percentage; but the
uint64 subtraction of the source wraps to 2 ^ 64 - 1 and the computed
percentage is not 0. -/
theorem cpuPercent_negative_delta_counterexample :
    ((exCPUNeg.CPUStats.CPUUsage.TotalUsage : ℤ) -
        (exCPUNeg.PreCPUStats.CPUUsage.TotalUsage : ℤ) ≤ 0) ∧
    calculateCPUPercent exCPUNeg ≠ 0 := by
  constructor
  · decide
  · norm_num [calculateCPUPercent, sub64, exCPUNeg]

/-- C2 (amended): the computed (wrapped, hence never negative) deltas are zero
exactly when a counter did not move; whenever either wrapped delta is zero,
calculateCPUPercent returns 0. A mathematically negative delta instead wraps
modulo 2 ^ 64 to a large positive value and need not give 0. -/
theorem calculateCPUPercent_zero_of_zero_wrapped_delta (s : types.StatsJSON)
    (h : sub64 s.CPUStats.CPUUsage.TotalUsage s.PreCPUStats.CPUUsage.TotalUsage = 0 ∨
        sub64 s.CPUStats.SystemUsage s.PreCPUStats.SystemUsage = 0) :
    calculateCPUPercent s = 0 := by
  rcases h with h | h <;> simp [calculateCPUPercent, h]

/-- C2 witness: a snapshot whose counters did not move gives zero percent. -/
theorem calculateCPUPercent_zero_witness :
    calculateCPUPercent exCPUFlat = 0 :=
  calculateCPUPercent_zero_of_zero_wrapped_delta exCPUFlat (Or.inl (by decide))

/-- C6: for a container that is not running, NewStatsChannel returns a record
whose stats channel and done channel are both absent (nil) and starts no
background task. -/
theorem newStatsChannel_not_running (c : types.Container)
    (h : IsContainerRunning c = false) :
    (NewStatsChannel c).Stats = none ∧ (NewStatsChannel c).Done = none ∧
      (NewStatsChannel c).startsTask = false := by
  simp [NewStatsChannel, h]

/-- C6 witness: a concrete container in state exited. -/
theorem newStatsChannel_not_running_witness :
    (NewStatsChannel cStopped).Stats = none ∧ (NewStatsChannel cStopped).Done = none ∧
      (NewStatsChannel cStopped).startsTask = false :=
  newStatsChannel_not_running cStopped (by decide)

/-- C10: the second assignment pass of buildStats overwrites the first with
equal values, so buildStats coincides with the single-pass construction: CPU
percentage from calculateCPUPercent, memory percentage from
calculateMemPercentage, block read and write from calculateBlockIO, network
from calculateNetwork, memory and limit from the snapshot, pids from the
snapshot, the truncated container id and the command. -/
theorem buildStats_eq_single_pass (c : types.Container) (s : types.StatsJSON)
    (top : List (List String)) :
    buildStats c s top = buildStatsSinglePass c s top := by
  simp only [buildStats, buildStatsSinglePass, calculateMemPercentage]

theorem countCloseStats_append (l1 l2 : List LoopAction) :
    countCloseStats (l1 ++ l2) = countCloseStats l1 + countCloseStats l2 :=
  List.countP_append isCloseStats l1 l2

theorem countCloseBody_append (l1 l2 : List LoopAction) :
    countCloseBody (l1 ++ l2) = countCloseBody l1 + countCloseBody l2 :=
  List.countP_append isCloseBody l1 l2

theorem step_exited (c : types.Container) (e : GoEvent) :
    step c LoopState.exited e = (LoopState.exited, []) := by
  cases e <;> rfl

theorem step_close_counts (c : types.Container) (st : LoopState) (e : GoEvent)
    (hst : st ≠ LoopState.exited) :
    ((step c st e).1 = LoopState.exited →
      countCloseStats (step c st e).2 = 1 ∧ countCloseBody (step c st e).2 = 1) ∧
    ((step c st e).1 ≠ LoopState.exited →
      countCloseStats (step c st e).2 = 0 ∧ countCloseBody (step c st e).2 = 0) := by
  cases st with
  | selecting =>
      cases e <;>
        simp [step, countCloseStats, countCloseBody, isCloseStats, isCloseBody]
  | decoding pd pc =>
      cases e with
      | tick => simp [step, countCloseStats, countCloseBody]
      | doneArrives => simp [step, countCloseStats, countCloseBody]
      | ctxArrives => simp [step, countCloseStats, countCloseBody]
      | decodeRet r =>
          cases r with
          | err =>
              simp [step, countCloseStats, countCloseBody, isCloseStats, isCloseBody]
          | nilSnap =>
              cases pd <;> cases pc <;>
                simp [step, afterTickBody, countCloseStats, countCloseBody,
                  isCloseStats, isCloseBody]
          | ok s top =>
              cases pd <;> cases pc <;>
                simp [step, afterTickBody, countCloseStats, countCloseBody,
                  isCloseStats, isCloseBody]
  | exited => exact absurd rfl hst

theorem runFrom_close_counts (c : types.Container) (evs : List GoEvent) :
    ∀ st acts,
      (st = LoopState.exited → countCloseStats acts = 1 ∧ countCloseBody acts = 1) →
      (st ≠ LoopState.exited → countCloseStats acts = 0 ∧ countCloseBody acts = 0) →
      (((runFrom c st acts evs).1 = LoopState.exited →
          countCloseStats (runFrom c st acts evs).2 = 1 ∧
          countCloseBody (runFrom c st acts evs).2 = 1) ∧
       ((runFrom c st acts evs).1 ≠ LoopState.exited →
          countCloseStats (runFrom c st acts evs).2 = 0 ∧
          countCloseBody (runFrom c st acts evs).2 = 0)) := by
  induction evs with
  | nil => intro st acts h1 h2; exact ⟨h1, h2⟩
  | cons e t ih =>
      intro st acts h1 h2
      simp only [runFrom]
      by_cases hst : st = LoopState.exited
      · subst hst
        rw [step_exited]
        simp only [List.append_nil]
        exact ih LoopState.exited acts h1 h2
      · have hs := step_close_counts c st e hst
        have h0 := h2 hst
        apply ih
        · intro hx
          have hy := hs.1 hx
          rw [countCloseStats_append, countCloseBody_append]
          refine ⟨?_, ?_⟩ <;> omega
        · intro hx
          have hy := hs.2 hx
          rw [countCloseStats_append, countCloseBody_append]
          refine ⟨?_, ?_⟩ <;> omega

theorem step_emits (c : types.Container) (st : LoopState) (e : GoEvent) :
    ∀ x ∈ (step c st e).2, emitIsBuild c x := by
  cases st with
  | selecting => cases e <;> simp [step, emitIsBuild]
  | decoding pd pc =>
      cases e with
      | tick => simp [step]
      | doneArrives => simp [step]
      | ctxArrives => simp [step]
      | decodeRet r =>
          cases r with
          | err => simp [step, emitIsBuild]
          | nilSnap =>
              cases pd <;> cases pc <;> simp [step, afterTickBody, emitIsBuild]
          | ok s top =>
              cases pd <;> cases pc <;>
                simp [step, afterTickBody, emitIsBuild]
  | exited => cases e <;> simp [step]

theorem runFrom_emits (c : types.Container) (evs : List GoEvent) :
    ∀ st acts, (∀ x ∈ acts, emitIsBuild c x) →
      ∀ x ∈ (runFrom c st acts evs).2, emitIsBuild c x := by
  induction evs with
  | nil => intro st acts h; exact h
  | cons e t ih =>
      intro st acts h
      simp only [runFrom]
      apply ih
      intro x hx
      rcases List.mem_append.mp hx with hx | hx
      · exact h x hx
      · exact step_emits c st e x hx

/-- C7: every run of the sampling loop closes the stats channel and the
response body exactly once when it exits (and never before); each exit
trigger — a done signal or a context cancellation observed at the select, or
a decode error — moves the loop to the exited state; and every value emitted
on the stats channel is a record built by buildStats from a decoded snapshot,
never an error value. -/
theorem samplingLoop_closes_once (c : types.Container) (evs : List GoEvent) :
    (((run c evs).1 = LoopState.exited →
        countCloseStats (run c evs).2 = 1 ∧ countCloseBody (run c evs).2 = 1) ∧
     ((run c evs).1 ≠ LoopState.exited →
        countCloseStats (run c evs).2 = 0 ∧ countCloseBody (run c evs).2 = 0)) ∧
    (∀ x ∈ (run c evs).2, emitIsBuild c x) ∧
    (step c LoopState.selecting GoEvent.doneArrives).1 = LoopState.exited ∧
    (step c LoopState.selecting GoEvent.ctxArrives).1 = LoopState.exited ∧
    (∀ pd pc, (step c (LoopState.decoding pd pc) (GoEvent.decodeRet DecodeResult.err)).1 =
      LoopState.exited) := by
  refine ⟨?_, ?_, rfl, rfl, fun pd pc => rfl⟩
  · exact runFrom_close_counts c evs LoopState.selecting []
      (fun h => absurd h (by simp)) (fun _ => ⟨rfl, rfl⟩)
  · exact runFrom_emits c evs LoopState.selecting []
      (fun x hx => absurd hx (List.not_mem_nil x))

/-- C7 witness: a concrete run ending in a decode error exits having closed
the stats channel and the response body exactly once. -/
theorem samplingLoop_closes_once_witness :
    countCloseStats (run c0 [GoEvent.tick, GoEvent.decodeRet DecodeResult.err]).2 = 1 ∧
    countCloseBody (run c0 [GoEvent.tick, GoEvent.decodeRet DecodeResult.err]).2 = 1 :=
  (samplingLoop_closes_once c0 [GoEvent.tick, GoEvent.decodeRet DecodeResult.err]).1.1
    (by decide)

/-- C8 counterexample: after a tick the goroutine is blocked inside
dec.Decode; a done signal arriving then leaves the loop still blocked in the
decode (state decoding with only a pending flag set) and performs no context
cancellation, so the in-flight decode is not unblocked by the request. -/
theorem cancel_during_decode_counterexample :
    (run c0 [GoEvent.tick, GoEvent.doneArrives]).1 = LoopState.decoding true false ∧
    LoopAction.cancelCtx ∉ (run c0 [GoEvent.tick, GoEvent.doneArrives]).2 := by
  refine ⟨rfl, ?_⟩
  simp [run, runFrom, step]

/-- C8 (amended): a cancellation request is only observed when the loop waits
in the select: there it cancels the context (aborting the connection) and
exits; a request arriving during an in-flight decode merely becomes pending —
no cancellation action is performed and the decode stays blocked — and it is
acted on at the next select, once the decode returns. -/
theorem cancellation_only_at_select (c : types.Container) :
    step c LoopState.selecting GoEvent.doneArrives =
      (LoopState.exited,
        [LoopAction.cancelCtx, LoopAction.closeStats, LoopAction.closeBody]) ∧
    (∀ pd pc, step c (LoopState.decoding pd pc) GoEvent.doneArrives =
      (LoopState.decoding true pc, [])) ∧
    (∀ pc s top, LoopAction.cancelCtx ∈
      (step c (LoopState.decoding true pc) (GoEvent.decodeRet (DecodeResult.ok s top))).2) := by
  refine ⟨rfl, fun pd pc => rfl, fun pc s top => ?_⟩
  simp [step, afterTickBody]

/-- C9: a failed process-list query (the error of daemon.Top being discarded)
does not abort the tick or terminate the loop: the decoded snapshot is still
built into a record and emitted, with the process-list field left empty. -/
theorem top_failure_does_not_abort_tick (c : types.Container) (s : types.StatsJSON) :
    (step c (LoopState.decoding false false)
        (GoEvent.decodeRet (DecodeResult.ok s none))).1 = LoopState.selecting ∧
    (step c (LoopState.decoding false false)
        (GoEvent.decodeRet (DecodeResult.ok s none))).2 =
      [LoopAction.emit (buildStats c s [])] ∧
    (buildStats c s []).ProcessList = [] ∧
    (∀ pd pc, LoopAction.emit (buildStats c s []) ∈
      (step c (LoopState.decoding pd pc) (GoEvent.decodeRet (DecodeResult.ok s none))).2) := by
  refine ⟨rfl, rfl, rfl, fun pd pc => ?_⟩
  cases pd <;> cases pc <;> simp [step, afterTickBody]
